import Mathlib

/-!
Verification of the car-specs exporter (`src/export_spec_info.py`).

The Python program is a single class `SpecExporter`.  We shallowly embed the
parts the claims are about:

* JSON documents are the inductive `Json`; Python `dict`s become association
  lists in document (insertion) order, which is Python's iteration order.
* The translation cache, the provider-call counter, the number of times
  `_save_cache` ran, and the persisted cache-file contents are gathered in an
  explicit state record `TransState`; `translate_text` becomes a state-passing
  function.  An exception raised by the translation provider is modelled by
  the provider returning `none` for that invocation (the provider is a
  function of the global invocation count).  `time.sleep` has no observable
  effect and is not modelled.
* `load_spec_data` takes the outcome of reading and parsing the catalog file
  as an argument (`none` = the read or the parse raised) plus the memo
  dictionary `spec_data_cache`, and returns the result together with the new
  memo.  Exceptions raised during the traversal (`.items()` on a non-dict,
  `.get` on a non-dict) are modelled with `Except`, and are caught by
  `load_spec_data` exactly where the Python `except` sits.
* `export_all_specs` is embedded with the source's indentation faithfully
  preserved: the `spec_id` computation and the append/export sit OUTSIDE the
  per-model loop, and the loop variables `model_name, model_data` persist
  after the loop (and across series), as Python local variables do.
-/

/-- A JSON value, as produced by `json.load`.  Objects keep document order. -/
inductive Json where
  | str : String → Json
  | num : Int → Json
  | bool : Bool → Json
  | null : Json
  | obj : List (String × Json) → Json
  | arr : List Json → Json

abbrev Obj := List (String × Json)

/-- Python `d[k]` / `k in d` on a dict: first (unique) matching key. -/
def dictLookup (k : String) : List (String × α) → Option α
  | [] => none
  | (k', v) :: rest => if k' = k then some v else dictLookup k rest

/-- Python `d[k] = v` on a dict: overwrite in place if present, else append. -/
def dictInsert (k : String) (v : α) : List (String × α) → List (String × α)
  | [] => [(k, v)]
  | (k', v') :: rest =>
      if k' = k then (k, v) :: rest else (k', v') :: dictInsert k v rest

/-- Python `str(x)` on a JSON value.  Scalars are rendered as Python does
(`str(None) = "None"`, `str(True) = "True"`); for containers Python renders
the full repr, which no claim inspects, so it is abbreviated to a fixed
non-empty token (non-emptiness is all the code ever observes of it, via the
`if spec_id:` truthiness test). -/
def pyStr : Json → String
  | .str s => s
  | .num n => toString n
  | .bool b => if b then "True" else "False"
  | .null => "None"
  | .obj _ => "\x7b...\x7d"
  | .arr _ => "[...]"

/-! ## Year-type extraction (source line 68)

`model_name.split('款')[0] if '款' in model_name else 'N/A'`.  The delimiter
is the single character `款`, so Python's substring test is membership of
that character and `split('款')[0]` is the prefix before its first
occurrence. -/

def kuan : Char := '款'

/-- Characters of `s` before the first occurrence of `c` (Python
`s.split(c)[0]` for a one-character separator). -/
def beforeFirst (c : Char) : List Char → List Char
  | [] => []
  | x :: xs => if x = c then [] else x :: beforeFirst c xs

/-- Python `c in s` for a one-character string `c`. -/
def containsChar (c : Char) : List Char → Bool
  | [] => false
  | x :: xs => x = c || containsChar c xs

/-- `model_name.split('款')[0] if '款' in model_name else 'N/A'`. -/
def yearType (name : String) : String :=
  if containsChar kuan name.data then ⟨beforeFirst kuan name.data⟩ else "N/A"

/-! ## Translation state and `translate_text` (source lines 29-117) -/

/-- The mutable state `translate_text` touches: the in-memory cache
`self.cache`, the count of provider invocations (`self.translator.translate`
calls), the count of `_save_cache` runs, and the persisted cache-file
contents. -/
structure TransState where
  cache : List (String × String)
  calls : Nat
  saves : Nat
  file : List (String × String)
deriving Repr, DecidableEq

/-- `_save_cache` (lines 29-36): rewrite the whole cache file from the
in-memory cache. -/
def save_cache (st : TransState) : TransState :=
  { st with saves := st.saves + 1, file := st.cache }

/-- The `for attempt in range(max_retries)` loop of `translate_text`
(lines 100-113), by the number of remaining attempts.  The provider is
invoked with the global call count; `none` models an exception.  On success
the result is cached and `_save_cache` runs; an exception on the final
attempt (`attempt == max_retries - 1`, i.e. no attempt remains after this
one) returns the original text; falling out of the loop (only possible when
`max_retries <= 0`) returns Python's implicit `None`. -/
def translateLoop (provider : Nat → Option String) (text key : String) :
    Nat → TransState → Option String × TransState
  | 0, st => (none, st)
  | rem + 1, st =>
      let st1 := { st with calls := st.calls + 1 }
      match provider st.calls with
      | some translated =>
          (some translated, save_cache { st1 with cache := dictInsert key translated st1.cache })
      | none =>
          if rem = 0 then (some text, st1)
          else translateLoop provider text key rem st1

/-- `translate_text` (lines 91-113).  `max_retries` is a Python `int`;
`range(max_retries)` is empty for any non-positive value.  The returned
`Option String` is the Python return value (`none` = `None`). -/
def translate_text (provider : Nat → Option String) (text dest_lang : String)
    (max_retries : Int) (st : TransState) : Option String × TransState :=
  if text = "" ∨ text = "N/A" then (some text, st)
  else
    let cache_key := text ++ "_" ++ dest_lang
    match dictLookup cache_key st.cache with
    | some v => (some v, st)
    | none => translateLoop provider text cache_key max_retries.toNat st

/-- `batch_translate` (lines 115-117): sequential comprehension, each element
translated with the default `max_retries = 3`. -/
def batch_translate (provider : Nat → Option String) (texts : List String)
    (dest_lang : String) (st : TransState) : List (Option String) × TransState :=
  match texts with
  | [] => ([], st)
  | t :: rest =>
      let p := translate_text provider t dest_lang 3 st
      let q := batch_translate provider rest dest_lang p.2
      (p.1 :: q.1, q.2)

/-! ## Catalog loading: `load_spec_data` (source lines 38-89)

The outcome of `open(self.data_path)` + `json.load` is passed in as
`Option Json` (`none` = either raised).  Exceptions raised while walking the
parsed document — `.items()` on a non-dict value of `'series'`, `'models'`,
`'config_data'` or a parameter group, or `.get` on a non-dict — are the
`Except.error` results below; `load_spec_data` catches them all (lines
87-89) and returns Python `None`. -/

/-- The record built at lines 62-80 for a matching model.  `specId`,
`manufacturerName` and `price` hold the raw JSON values the Python dict
holds (`.get` defaults included). -/
structure SpecData where
  specId : Json
  specName : String
  brandName : String
  seriesName : String
  manufacturerName : Json
  yearType : String
  price : Json
  paramValues : Option (List (String × String))

/-- Flattening of `config_data` (lines 74-79): for each category in document
order, for each parameter in document order, one
`(category ++ "-" ++ name, str(value))` pair.  A non-dict parameter group
raises (`params.items()`). -/
def buildParams : Obj → Except Unit (List (String × String))
  | [] => .ok []
  | (category, params) :: rest =>
      match params with
      | .obj ps =>
          match buildParams rest with
          | .ok tail => .ok (ps.map (fun pv => (category ++ "-" ++ pv.1, pyStr pv.2)) ++ tail)
          | .error e => .error e
      | _ => .error ()

/-- The `spec_data` dict built for a matching model (lines 62-80), including
the `config_data` flattening guarded by `'config_data' in model_data`. -/
def buildSpecData (brand_name series_name : String) (bfields : Obj)
    (model_name : String) (mfields : Obj) : Except Unit SpecData :=
  let base : SpecData :=
    { specId := (dictLookup "spec_id" mfields).getD .null
      specName := model_name
      brandName := brand_name
      seriesName := series_name
      manufacturerName := (dictLookup "manufacturer_name" bfields).getD (.str "N/A")
      yearType := yearType model_name
      price := (dictLookup "price" mfields).getD (.str "N/A")
      paramValues := none }
  match dictLookup "config_data" mfields with
  | none => .ok base
  | some (.obj cats) =>
      match buildParams cats with
      | .ok pvs => .ok { base with paramValues := some pvs }
      | .error e => .error e
  | some _ => .error ()

/-- The per-model loop of `load_spec_data` (lines 57-83): skip non-dict
models, return the first whose `str(model_data.get('spec_id'))` equals the
requested id. -/
def scanModels (brand_name series_name : String) (bfields : Obj) (spec_id : String) :
    List (String × Json) → Except Unit (Option SpecData)
  | [] => .ok none
  | (model_name, model_data) :: rest =>
      match model_data with
      | .obj mfields =>
          if pyStr ((dictLookup "spec_id" mfields).getD .null) = spec_id then
            match buildSpecData brand_name series_name bfields model_name mfields with
            | .ok sd => .ok (some sd)
            | .error e => .error e
          else scanModels brand_name series_name bfields spec_id rest
      | _ => scanModels brand_name series_name bfields spec_id rest

/-- The per-series loop (lines 52-83): skip non-dict series; when
`'models'` is present its value must be a dict or `.items()` raises. -/
def scanSeries (brand_name : String) (bfields : Obj) (spec_id : String) :
    List (String × Json) → Except Unit (Option SpecData)
  | [] => .ok none
  | (series_name, series_data) :: rest =>
      match series_data with
      | .obj sfields =>
          match dictLookup "models" sfields with
          | some (.obj models) =>
              match scanModels brand_name series_name bfields spec_id models with
              | .ok (some sd) => .ok (some sd)
              | .ok none => scanSeries brand_name bfields spec_id rest
              | .error e => .error e
          | some _ => .error ()
          | none => scanSeries brand_name bfields spec_id rest
      | _ => scanSeries brand_name bfields spec_id rest

/-- The per-brand loop (lines 47-83): skip non-dict brands; when `'series'`
is present its value must be a dict or `.items()` raises. -/
def scanBrands (spec_id : String) : List (String × Json) → Except Unit (Option SpecData)
  | [] => .ok none
  | (brand_name, brand_data) :: rest =>
      match brand_data with
      | .obj bfields =>
          match dictLookup "series" bfields with
          | some (.obj series) =>
              match scanSeries brand_name bfields spec_id series with
              | .ok (some sd) => .ok (some sd)
              | .ok none => scanBrands spec_id rest
              | .error e => .error e
          | some _ => .error ()
          | none => scanBrands spec_id rest
      | _ => scanBrands spec_id rest

/-- The traversal of the parsed document; `data.items()` raises when the
top-level value is not a dict. -/
def findSpec (data : Json) (spec_id : String) : Except Unit (Option SpecData) :=
  match data with
  | .obj brands => scanBrands spec_id brands
  | _ => .error ()

/-- `load_spec_data` (lines 38-89): memo lookup first; then read+parse
(`readResult`, `none` = the read or parse raised); then scan.  Every raised
exception is caught at lines 87-89 and turned into `None`; only a found
record is memoized (line 82). -/
def load_spec_data (readResult : Option Json) (memo : List (String × SpecData))
    (spec_id : String) : Option SpecData × List (String × SpecData) :=
  match dictLookup spec_id memo with
  | some sd => (some sd, memo)
  | none =>
      match readResult with
      | none => (none, memo)
      | some data =>
          match findSpec data spec_id with
          | .error _ => (none, memo)
          | .ok none => (none, memo)
          | .ok (some sd) => (some sd, dictInsert spec_id sd memo)

/-! ## `export_all_specs` (source lines 421-458)

The source's per-model loop body is only the `isinstance` guard; the
`spec_id` computation, the append to `specs` and the `export_spec_info` call
are indented OUTSIDE it (lines 442-451), so they run once per series, on
whatever `model_name, model_data` hold after the loop.  Python loop
variables persist after the loop and across iterations of the enclosing
loops, so an empty `models` dict reuses the binding from the previous
series — or raises `NameError` if there is none yet.  Each append is
immediately followed by `export_spec_info(spec_id)`, so the `specs` field
below is also, in order, the list of specs the full-export path exports. -/

/-- One entry of the `specs` list collected by `export_all_specs`
(lines 444-449). -/
structure SpecSummary where
  specId : String
  specName : String
  brandName : String
  seriesName : String
deriving Repr, DecidableEq

/-- State threaded through `export_all_specs`: the collected summaries, the
current `model_name, model_data` binding (Python locals; `none` = not yet
bound), and whether an exception escaped to the `except` at line 457. -/
structure ExpState where
  specs : List SpecSummary
  last : Option (String × Json)
  err : Bool

/-- The per-model loop (lines 438-440): its body only skips non-dicts, so
its sole effect is to leave the loop variables bound to the last item. -/
def lastBinding : List (String × Json) → Option (String × Json) → Option (String × Json)
  | [], last => last
  | m :: rest, _ => lastBinding rest (some m)

/-- Lines 442-451, which run once per series after the model loop:
`spec_id = str(model_data.get('spec_id'))`, and when that string is truthy
(non-empty) append a summary and export it.  An unbound `model_data`
(`NameError`) or a non-dict one (`.get` raises) aborts the whole export. -/
def afterModelLoop (brand_name series_name : String) (last : Option (String × Json))
    (specs : List SpecSummary) : Option (List SpecSummary) :=
  match last with
  | none => none
  | some (model_name, model_data) =>
      match model_data with
      | .obj mfields =>
          let spec_id := pyStr ((dictLookup "spec_id" mfields).getD .null)
          if spec_id ≠ "" then
            some (specs ++ [⟨spec_id, model_name, brand_name, series_name⟩])
          else some specs
      | _ => none

/-- The per-series step of `export_all_specs` (lines 433-451). -/
def expSeriesStep (brand_name : String) (st : ExpState) (entry : String × Json) : ExpState :=
  if st.err then st else
  match entry.2 with
  | .obj sfields =>
      match dictLookup "models" sfields with
      | some (.obj models) =>
          let last := lastBinding models st.last
          match afterModelLoop brand_name entry.1 last st.specs with
          | some specs => { specs := specs, last := last, err := false }
          | none => { st with last := last, err := true }
      | some _ => { st with err := true }
      | none => st
  | _ => st

/-- The per-brand step of `export_all_specs` (lines 428-451). -/
def expBrandStep (st : ExpState) (entry : String × Json) : ExpState :=
  if st.err then st else
  match entry.2 with
  | .obj bfields =>
      match dictLookup "series" bfields with
      | some (.obj series) => series.foldl (expSeriesStep entry.1) st
      | some _ => { st with err := true }
      | none => st
  | _ => st

/-- `export_all_specs` (lines 421-458).  `readResult = none` models a raise
in `open`/`json.load`; a non-dict top level raises at `data.items()`.  On
`err = true` the exception was caught at line 457: the summaries already
collected record the exports performed before the abort, and no index page
is generated. -/
def export_all_specs (readResult : Option Json) : ExpState :=
  match readResult with
  | none => { specs := [], last := none, err := true }
  | some (.obj brands) => brands.foldl expBrandStep { specs := [], last := none, err := false }
  | some _ => { specs := [], last := none, err := true }

/-- Fixture constructor: the `models` dict of a series, every model a dict. -/
def mkModels (ms : List (String × Obj)) : Obj :=
  ms.map (fun p => (p.1, Json.obj p.2))

/-- Fixture constructor: brand fields holding one series with the given models. -/
def mkBrandFields (sn : String) (ms : List (String × Obj)) : Obj :=
  [("series", Json.obj [(sn, Json.obj [("models", Json.obj (mkModels ms))])])]

/-- Fixture constructor: a catalog of one brand with one series. -/
def mkCatalog (bn sn : String) (ms : List (String × Obj)) : Json :=
  Json.obj [(bn, Json.obj (mkBrandFields sn ms))]

/-! ## Dictionary lemmas -/

theorem dictLookup_insert_self (k : String) (v : α) (c : List (String × α)) :
    dictLookup k (dictInsert k v c) = some v := by
  induction c with
  | nil => simp [dictLookup, dictInsert]
  | cons head tail ih =>
      obtain ⟨k', v'⟩ := head
      by_cases h : k' = k
      · simp [dictLookup, dictInsert, h]
      · simp [dictLookup, dictInsert, h, ih]

theorem dictLookup_insert_ne (k q : String) (v : α) (c : List (String × α))
    (h : q ≠ k) : dictLookup q (dictInsert k v c) = dictLookup q c := by
  have hk : ¬ k = q := fun hkq => h hkq.symm
  induction c with
  | nil => simp [dictLookup, dictInsert, hk]
  | cons head tail ih =>
      obtain ⟨k', v'⟩ := head
      by_cases hkk : k' = k
      · subst hkk
        simp [dictLookup, dictInsert, hk]
      · simp [dictLookup, dictInsert, hkk, ih]

/-! ## Retry-loop lemmas -/

/-- A provider that raises on every call: `max_retries >= 1` attempts all
fail, the original text comes back, and only the call counter moves. -/
theorem translateLoop_fail (provider : Nat → Option String) (text key : String)
    (hp : ∀ i, provider i = none) :
    ∀ (n : Nat) (st : TransState),
      translateLoop provider text key (n + 1) st =
        (some text, { st with calls := st.calls + (n + 1) }) := by
  intro n
  induction n with
  | zero => intro st; simp [translateLoop, hp]
  | succ m ih =>
      intro st
      have h1 : translateLoop provider text key (m + 1 + 1) st =
          translateLoop provider text key (m + 1) { st with calls := st.calls + 1 } := by
        simp [translateLoop, hp]
      rw [h1, ih]
      simp only [Prod.mk.injEq, TransState.mk.injEq, true_and, and_true]
      omega

/-- A provider that succeeds on the attempt made: the result is cached under
the key and the whole cache is saved to the file. -/
theorem translateLoop_success (provider : Nat → Option String) (text key : String)
    (m : Nat) (st : TransState) (r : String) (hp : provider st.calls = some r) :
    translateLoop provider text key (m + 1) st =
      (some r, { cache := dictInsert key r st.cache, calls := st.calls + 1,
                 saves := st.saves + 1, file := dictInsert key r st.cache }) := by
  simp [translateLoop, hp, save_cache]

/-- C6: for empty or sentinel text, `translate_text` returns the input
unchanged and touches nothing: no cache access, no provider call, no save. -/
theorem translate_text_sentinel (provider : Nat → Option String)
    (text dest_lang : String) (max_retries : Int) (st : TransState)
    (h : text = "" ∨ text = "N/A") :
    translate_text provider text dest_lang max_retries st = (some text, st) := by
  simp only [translate_text, if_pos h]

theorem translate_text_sentinel_witness :
    translate_text (fun _ => some "x") "N/A" "pl" 3
        { cache := [], calls := 0, saves := 0, file := [] } =
      (some "N/A", { cache := [], calls := 0, saves := 0, file := [] }) :=
  translate_text_sentinel (fun _ => some "x") "N/A" "pl" 3
    { cache := [], calls := 0, saves := 0, file := [] } (Or.inr rfl)

/-- C2: with a provider that raises on every call and a non-empty,
non-sentinel, uncached text, `translate_text` makes exactly `max_retries`
provider calls, returns the original text, and the composite key is still
absent from the cache afterwards. -/
theorem translate_text_retry_exhaustion (provider : Nat → Option String)
    (text dest_lang : String) (max_retries : Int) (st : TransState)
    (hp : ∀ i, provider i = none)
    (ht : text ≠ "") (hs : text ≠ "N/A")
    (hc : dictLookup (text ++ "_" ++ dest_lang) st.cache = none)
    (hr : 1 ≤ max_retries) :
    translate_text provider text dest_lang max_retries st =
      (some text, { st with calls := st.calls + max_retries.toNat }) ∧
    dictLookup (text ++ "_" ++ dest_lang)
      (translate_text provider text dest_lang max_retries st).2.cache = none := by
  have hn : ¬ (text = "" ∨ text = "N/A") := by tauto
  obtain ⟨m, hm⟩ : ∃ m, max_retries.toNat = m + 1 := ⟨max_retries.toNat - 1, by omega⟩
  have hmain : translate_text provider text dest_lang max_retries st =
      (some text, { st with calls := st.calls + max_retries.toNat }) := by
    simp only [translate_text, if_neg hn, hc, hm]
    exact translateLoop_fail provider text (text ++ "_" ++ dest_lang) hp m st
  refine ⟨hmain, ?_⟩
  rw [hmain]
  exact hc

theorem translate_text_retry_exhaustion_witness :
    translate_text (fun _ => none) "hello" "pl" 3
        { cache := [], calls := 0, saves := 0, file := [] } =
      (some "hello", { cache := [], calls := 3, saves := 0, file := [] }) := by
  have h := translate_text_retry_exhaustion (fun _ => none) "hello" "pl" 3
      { cache := [], calls := 0, saves := 0, file := [] }
      (fun _ => rfl) (by decide) (by decide) rfl (by norm_num)
  simpa using h.1

/-- C9: with `max_retries <= 0` the `range(max_retries)` loop body never
runs: no provider call, no state change, and the function returns Python
`None` (not the original text), breaking the stated contract. -/
theorem translate_text_nonpositive_retries (provider : Nat → Option String)
    (text dest_lang : String) (max_retries : Int) (st : TransState)
    (ht : text ≠ "") (hs : text ≠ "N/A")
    (hc : dictLookup (text ++ "_" ++ dest_lang) st.cache = none)
    (hr : max_retries ≤ 0) :
    translate_text provider text dest_lang max_retries st = (none, st) ∧
    (none : Option String) ≠ some text := by
  have hn : ¬ (text = "" ∨ text = "N/A") := by tauto
  have h0 : max_retries.toNat = 0 := by omega
  refine ⟨?_, by simp⟩
  simp only [translate_text, if_neg hn, hc, h0, translateLoop]

theorem translate_text_nonpositive_retries_witness :
    translate_text (fun _ => some "x") "hello" "pl" (-1)
        { cache := [], calls := 0, saves := 0, file := [] } =
      (none, { cache := [], calls := 0, saves := 0, file := [] }) :=
  (translate_text_nonpositive_retries (fun _ => some "x") "hello" "pl" (-1)
    { cache := [], calls := 0, saves := 0, file := [] }
    (by decide) (by decide) rfl (by norm_num)).1

/-- C4: with a provider that succeeds on the call made, calling
`translate_text` twice on an uncached non-sentinel text yields the identical
translation both times, the provider is invoked exactly once (the second
call is a cache hit that changes nothing). -/
theorem translate_text_idempotent (provider : Nat → Option String)
    (text dest_lang : String) (n : Int) (st : TransState) (r : String)
    (ht : text ≠ "") (hs : text ≠ "N/A")
    (hc : dictLookup (text ++ "_" ++ dest_lang) st.cache = none)
    (hn : 1 ≤ n) (hp : provider st.calls = some r) :
    ∃ st', translate_text provider text dest_lang n st = (some r, st') ∧
      translate_text provider text dest_lang n st' = (some r, st') ∧
      st'.calls = st.calls + 1 := by
  have hsent : ¬ (text = "" ∨ text = "N/A") := by tauto
  obtain ⟨m, hm⟩ : ∃ m, n.toNat = m + 1 := ⟨n.toNat - 1, by omega⟩
  refine ⟨{ cache := dictInsert (text ++ "_" ++ dest_lang) r st.cache,
            calls := st.calls + 1, saves := st.saves + 1,
            file := dictInsert (text ++ "_" ++ dest_lang) r st.cache }, ?_, ?_, rfl⟩
  · simp only [translate_text, if_neg hsent, hc, hm]
    exact translateLoop_success provider text (text ++ "_" ++ dest_lang) m st r hp
  · simp only [translate_text, if_neg hsent, dictLookup_insert_self]

theorem translate_text_idempotent_witness :
    ∃ st', translate_text (fun _ => some "czesc") "hello" "pl" 3
        { cache := [], calls := 0, saves := 0, file := [] } = (some "czesc", st') ∧
      translate_text (fun _ => some "czesc") "hello" "pl" 3 st' = (some "czesc", st') ∧
      st'.calls = 0 + 1 :=
  translate_text_idempotent (fun _ => some "czesc") "hello" "pl" 3
    { cache := [], calls := 0, saves := 0, file := [] } "czesc"
    (by decide) (by decide) rfl (by norm_num) rfl

/-- The retry loop never removes or overwrites an existing cache entry under
a different key: it inserts at most once, under its own key. -/
theorem translateLoop_preserves (provider : Nat → Option String)
    (text key : String) (k : String) (v : String) (hne : k ≠ key) :
    ∀ (n : Nat) (st : TransState), dictLookup k st.cache = some v →
      dictLookup k (translateLoop provider text key n st).2.cache = some v := by
  intro n
  induction n with
  | zero => intro st h; simpa [translateLoop] using h
  | succ m ih =>
      intro st h
      simp only [translateLoop]
      cases hp : provider st.calls with
      | some translated =>
          simpa [save_cache, dictLookup_insert_ne key k translated st.cache hne] using h
      | none =>
          by_cases hm : m = 0
          · simpa [hm] using h
          · simpa [hm] using ih { st with calls := st.calls + 1 } h

/-- `translate_text` never removes or overwrites an existing cache entry. -/
theorem translate_text_cache_monotone (provider : Nat → Option String)
    (text dest_lang : String) (n : Int) (st : TransState) (k v : String)
    (h : dictLookup k st.cache = some v) :
    dictLookup k (translate_text provider text dest_lang n st).2.cache = some v := by
  by_cases hsent : text = "" ∨ text = "N/A"
  · simpa [translate_text, if_pos hsent] using h
  · simp only [translate_text, if_neg hsent]
    cases hc : dictLookup (text ++ "_" ++ dest_lang) st.cache with
    | some w => simpa using h
    | none =>
        have hne : k ≠ text ++ "_" ++ dest_lang := by
          intro he; rw [he] at h; rw [h] at hc; cases hc
        exact translateLoop_preserves provider text (text ++ "_" ++ dest_lang) k v hne
          n.toNat st h

/-- `batch_translate` never removes or overwrites an existing cache entry. -/
theorem batch_translate_cache_monotone (provider : Nat → Option String)
    (texts : List String) (dest_lang : String) (k v : String) :
    ∀ (st : TransState), dictLookup k st.cache = some v →
      dictLookup k (batch_translate provider texts dest_lang st).2.cache = some v := by
  induction texts with
  | nil => intro st h; simpa [batch_translate] using h
  | cons t rest ih =>
      intro st h
      simp only [batch_translate]
      exact ih _ (translate_text_cache_monotone provider t dest_lang 3 st k v h)

/-- C5: once a composite key is in the cache, no exporter operation that
touches the cache (`translate_text`, `batch_translate`) ever changes its
value — the first successful translation wins. -/
theorem cache_first_translation_wins (k v : String)
    (provider : Nat → Option String) (dest_lang : String) (st : TransState)
    (h : dictLookup k st.cache = some v) :
    (∀ (text : String) (n : Int),
        dictLookup k (translate_text provider text dest_lang n st).2.cache = some v) ∧
    (∀ texts : List String,
        dictLookup k (batch_translate provider texts dest_lang st).2.cache = some v) :=
  ⟨fun text n => translate_text_cache_monotone provider text dest_lang n st k v h,
   fun texts => batch_translate_cache_monotone provider texts dest_lang k v st h⟩

theorem cache_first_translation_wins_witness :
    dictLookup "hello_pl" (translate_text (fun _ => some "z") "hello" "pl" 3
        { cache := [("hello_pl", "czesc")], calls := 0, saves := 0,
          file := [("hello_pl", "czesc")] }).2.cache = some "czesc" :=
  (cache_first_translation_wins "hello_pl" "czesc" (fun _ => some "z") "pl"
    { cache := [("hello_pl", "czesc")], calls := 0, saves := 0,
      file := [("hello_pl", "czesc")] } rfl).1 "hello" 3

/-- The retry loop either leaves cache, save count and file untouched, or
performs exactly one insert-then-save, with the file rewritten to the new
cache. -/
theorem translateLoop_frame (provider : Nat → Option String) (text key : String) :
    ∀ (n : Nat) (st : TransState),
      ((translateLoop provider text key n st).2.cache = st.cache ∧
       (translateLoop provider text key n st).2.saves = st.saves ∧
       (translateLoop provider text key n st).2.file = st.file) ∨
      (∃ tr, (translateLoop provider text key n st).1 = some tr ∧
        (translateLoop provider text key n st).2.cache = dictInsert key tr st.cache ∧
        (translateLoop provider text key n st).2.saves = st.saves + 1 ∧
        (translateLoop provider text key n st).2.file = dictInsert key tr st.cache) := by
  intro n
  induction n with
  | zero => intro st; left; simp [translateLoop]
  | succ m ih =>
      intro st
      simp only [translateLoop]
      cases hp : provider st.calls with
      | some translated =>
          right
          exact ⟨translated, by simp [save_cache]⟩
      | none =>
          by_cases hm : m = 0
          · left; simp [hm]
          · simpa [hm] using ih { st with calls := st.calls + 1 }

/-- C10: on a cache hit, and for empty or sentinel input, `translate_text`
returns with the state unchanged — cache untouched, `_save_cache` not run,
file not rewritten.  In general the cache file is rewritten (one
`_save_cache` run) exactly when a new successful translation was inserted
for a previously uncached key, and then the file holds the updated cache. -/
theorem translate_text_save_frame (provider : Nat → Option String)
    (text dest_lang : String) (n : Int) (st : TransState) :
    ((text = "" ∨ text = "N/A") →
        translate_text provider text dest_lang n st = (some text, st)) ∧
    (∀ v, dictLookup (text ++ "_" ++ dest_lang) st.cache = some v →
        (translate_text provider text dest_lang n st).2 = st) ∧
    (((translate_text provider text dest_lang n st).2.cache = st.cache ∧
      (translate_text provider text dest_lang n st).2.saves = st.saves ∧
      (translate_text provider text dest_lang n st).2.file = st.file) ∨
     (∃ tr, (translate_text provider text dest_lang n st).1 = some tr ∧
        dictLookup (text ++ "_" ++ dest_lang) st.cache = none ∧
        (translate_text provider text dest_lang n st).2.cache =
          dictInsert (text ++ "_" ++ dest_lang) tr st.cache ∧
        (translate_text provider text dest_lang n st).2.saves = st.saves + 1 ∧
        (translate_text provider text dest_lang n st).2.file =
          (translate_text provider text dest_lang n st).2.cache)) := by
  refine ⟨fun h => by simp only [translate_text, if_pos h], ?_, ?_⟩
  · intro v hv
    by_cases hsent : text = "" ∨ text = "N/A"
    · simp only [translate_text, if_pos hsent]
    · simp only [translate_text, if_neg hsent, hv]
  · by_cases hsent : text = "" ∨ text = "N/A"
    · left; simp [translate_text, if_pos hsent]
    · simp only [translate_text, if_neg hsent]
      cases hc : dictLookup (text ++ "_" ++ dest_lang) st.cache with
      | some v => left; simp
      | none =>
          rcases translateLoop_frame provider text (text ++ "_" ++ dest_lang)
              n.toNat st with h | ⟨tr, h1, h2, h3, h4⟩
          · left; exact h
          · right; exact ⟨tr, h1, rfl, h2, h3, by rw [h4, h2]⟩

theorem translate_text_save_frame_witness :
    (translate_text (fun _ => some "z") "hello" "pl" 3
        { cache := [("hello_pl", "czesc")], calls := 0, saves := 0,
          file := [("hello_pl", "czesc")] }).2 =
      { cache := [("hello_pl", "czesc")], calls := 0, saves := 0,
        file := [("hello_pl", "czesc")] } :=
  (translate_text_save_frame (fun _ => some "z") "hello" "pl" 3
    { cache := [("hello_pl", "czesc")], calls := 0, saves := 0,
      file := [("hello_pl", "czesc")] }).2.1 "czesc" rfl

/-! ## Year-type lemmas -/

theorem containsChar_append_self (c : Char) (l r : List Char) :
    containsChar c (l ++ c :: r) = true := by
  induction l with
  | nil => simp [containsChar]
  | cons x xs ih => simp [containsChar, ih]

theorem beforeFirst_append (c : Char) (l r : List Char)
    (h : containsChar c l = false) : beforeFirst c (l ++ c :: r) = l := by
  induction l with
  | nil => simp [beforeFirst]
  | cons x xs ih =>
      simp only [containsChar, Bool.or_eq_false_iff, decide_eq_false_iff_not] at h
      simp only [List.cons_append, beforeFirst, if_neg h.1, List.append_eq]
      rw [ih h.2]

/-- C7: the derived year-type of `"2024款 Pro"` is `"2024"` and of `"Pro"`
is the sentinel; in general, when the name is any prefix free of the
delimiter followed by the delimiter, the year-type is that prefix (the
portion before the FIRST occurrence), and a name without the delimiter
yields the sentinel. -/
theorem yearType_spec :
    yearType "2024款 Pro" = "2024" ∧ yearType "Pro" = "N/A" ∧
    (∀ pre post : String, containsChar kuan pre.data = false →
        yearType (pre ++ "款" ++ post) = pre) ∧
    (∀ name : String, containsChar kuan name.data = false →
        yearType name = "N/A") := by
  refine ⟨by decide, by decide, ?_, ?_⟩
  · intro pre post h
    have hdata : (pre ++ "款" ++ post).data = pre.data ++ kuan :: post.data := by
      simp [String.data_append]
      rfl
    simp only [yearType, hdata, containsChar_append_self, if_pos]
    rw [beforeFirst_append kuan pre.data post.data h]
  · intro name h
    simp [yearType, h]

theorem yearType_spec_witness :
    containsChar kuan ("2024" : String).data = false ∧
    yearType ("2024" ++ "款" ++ " Pro") = "2024" :=
  ⟨by decide, yearType_spec.2.2.1 "2024" " Pro" (by decide)⟩

/-! ## `load_spec_data` error behavior -/

/-- C8: `load_spec_data` propagates no exception.  For an uncached id, a
failed read/parse, a traversal exception caught at lines 87-89, and a
genuine no-match all return `None` with the memo untouched — indistinguishable
at the public interface. -/
theorem load_spec_data_swallows_errors (memo : List (String × SpecData))
    (spec_id : String) (hmemo : dictLookup spec_id memo = none) :
    load_spec_data none memo spec_id = (none, memo) ∧
    (∀ data, findSpec data spec_id = .error () →
        load_spec_data (some data) memo spec_id = (none, memo)) ∧
    (∀ data, findSpec data spec_id = .ok none →
        load_spec_data (some data) memo spec_id = (none, memo)) := by
  refine ⟨?_, ?_, ?_⟩
  · simp [load_spec_data, hmemo]
  · intro data h; simp [load_spec_data, hmemo, h]
  · intro data h; simp [load_spec_data, hmemo, h]

theorem load_spec_data_swallows_errors_witness :
    load_spec_data none [] "12345" = (none, []) :=
  (load_spec_data_swallows_errors [] "12345" rfl).1

/-- C3 counterexample: the claim says an unreadable/unparseable catalog makes
`load_spec_data` fail with a DataError distinguishable from a soft "not
found".  In the code both paths return the same value: a failed read/parse
(left) is indistinguishable from a clean scan with no match (right). -/
theorem load_spec_data_error_indistinguishable :
    load_spec_data none [] "1" = load_spec_data (some (Json.obj [])) [] "1" := rfl

/-- C3 (amended): for a catalog document that cannot be read or parsed,
`load_spec_data` catches the error, returns `None`, and produces no partial
result (the memo cache is unchanged); the outcome is the same soft `None`
that a no-match lookup yields, and the caller skips just that export. -/
theorem load_spec_data_read_failure_soft (memo : List (String × SpecData))
    (spec_id : String) (hmemo : dictLookup spec_id memo = none) :
    load_spec_data none memo spec_id = (none, memo) := by
  simp [load_spec_data, hmemo]

theorem load_spec_data_read_failure_soft_witness :
    load_spec_data none [] "9" = (none, []) :=
  load_spec_data_read_failure_soft [] "9" rfl

/-! ## `export_all_specs`: one entry per series, not per model -/

/-- The loop variables after the per-model loop hold the last item of a
non-empty `models` dict, whatever they held before. -/
theorem lastBinding_concat (x : String × Json) :
    ∀ (l : List (String × Json)) (acc : Option (String × Json)),
      lastBinding (l ++ [x]) acc = some x := by
  intro l
  induction l with
  | nil => intro acc; simp [lastBinding]
  | cons y ys ih => intro acc; simp [lastBinding, ih]

/-- `load_spec_data`'s scan matches the FIRST model whose stringified
`spec_id` equals the query — the per-spec path sees every model. -/
theorem scanModels_head_found (bn sn : String) (bf : Obj) (mname : String)
    (mf : Obj) (rest : List (String × Json)) (sd : SpecData)
    (h : buildSpecData bn sn bf mname mf = .ok sd) :
    scanModels bn sn bf (pyStr ((dictLookup "spec_id" mf).getD Json.null))
      ((mname, Json.obj mf) :: rest) = .ok (some sd) := by
  simp [scanModels, h]

/-- A one-brand, one-series catalog delegates directly to the model scan. -/
theorem findSpec_single_found (bn sn q : String) (models : Obj) (sd : SpecData)
    (h : scanModels bn sn
        [("series", Json.obj [(sn, Json.obj [("models", Json.obj models)])])]
        q models = .ok (some sd)) :
    findSpec (Json.obj [(bn, Json.obj
        [("series", Json.obj [(sn, Json.obj [("models", Json.obj models)])])])]) q
      = .ok (some sd) := by
  simp [findSpec, scanBrands, dictLookup, scanSeries, h]

/-- C1: in the full-export path, a series with more than one model (here
`m1 :: front ++ [lm]`, at least two) contributes exactly ONE `specs` entry
and one `export_spec_info` call — for the LAST model iterated — because the
`spec_id` computation and the append/export sit outside the per-model loop;
while the per-spec path `load_spec_data`, queried with the FIRST model's
stringified id on the same catalog, still returns that first model's
record. -/
theorem export_all_specs_last_model_only (bn sn : String)
    (m1 : String × Obj) (front : List (String × Obj)) (lm : String × Obj)
    (sd : SpecData)
    (hq : pyStr ((dictLookup "spec_id" lm.2).getD Json.null) ≠ "")
    (hbuild : buildSpecData bn sn (mkBrandFields sn (m1 :: front ++ [lm]))
        m1.1 m1.2 = Except.ok sd) :
    export_all_specs (some (mkCatalog bn sn (m1 :: front ++ [lm]))) =
      { specs := [⟨pyStr ((dictLookup "spec_id" lm.2).getD Json.null), lm.1, bn, sn⟩],
        last := some (lm.1, Json.obj lm.2), err := false } ∧
    1 < (m1 :: front ++ [lm]).length ∧
    load_spec_data (some (mkCatalog bn sn (m1 :: front ++ [lm]))) []
        (pyStr ((dictLookup "spec_id" m1.2).getD Json.null)) =
      (some sd,
       [(pyStr ((dictLookup "spec_id" m1.2).getD Json.null), sd)]) := by
  refine ⟨?_, by simp, ?_⟩
  · simp [export_all_specs, mkCatalog, expBrandStep, mkBrandFields, dictLookup,
      expSeriesStep, mkModels, lastBinding, lastBinding_concat, afterModelLoop, hq]
  · simp only [mkCatalog, mkBrandFields, mkModels, List.map_cons] at hbuild ⊢
    have hscan := scanModels_head_found bn sn _ m1.1 m1.2
        (List.map (fun p => (p.1, Json.obj p.2)) (front ++ [lm])) sd hbuild
    have hfind := findSpec_single_found bn sn _ _ sd hscan
    simp only [load_spec_data, dictLookup, hfind, dictInsert]

theorem export_all_specs_last_model_only_witness :
    export_all_specs (some (mkCatalog "B" "S"
        [("M1", [("spec_id", Json.str "1")]),
         ("M2", [("spec_id", Json.str "2")])])) =
      { specs := [⟨"2", "M2", "B", "S"⟩],
        last := some ("M2", Json.obj [("spec_id", Json.str "2")]),
        err := false } :=
  (export_all_specs_last_model_only "B" "S" ("M1", [("spec_id", Json.str "1")])
    [] ("M2", [("spec_id", Json.str "2")])
    { specId := Json.str "1", specName := "M1", brandName := "B",
      seriesName := "S", manufacturerName := Json.str "N/A", yearType := "N/A",
      price := Json.str "N/A", paramValues := none }
    (by decide) rfl).1
